import Mathlib

/-!
Verification of the jp-politics policy-comparison backend.

This file is a shallow embedding, in Lean 4, of the request handler in
`src/api/summarize.ts` (and of its near-duplicate variant in
`src/unnamed/part_002`).  The handler orchestrates: request validation,
a cache lookup keyed on the sorted source URLs plus the free-form
question, concurrent scraping of every party's policy page, a partition
of the scrape results into successes and failures by a sentinel-string
test, two concurrent model calls, a merge of per-theme failure
sentinels for the failed parties, and a best-effort-intended cache
write.

External effects (the HTTP fetch of a policy page, the key-value store,
the two model calls) are passed in as oracle functions inside an `Env`
record; the handler body itself is translated statement by statement
from the TypeScript source.  Besides the JSON response, the embedding
returns a `Trace` recording how many source fetches and model calls
were issued and which cache keys were written, so that claims of the
form "no network call happens before X" become provable statements.
-/

namespace JpPolitics

/-- JavaScript's `\s` character class (ECMAScript WhiteSpace plus
LineTerminator), used by `.replace(/\s\s+/g, ' ')` and `.trim()` in
`scrapeTextFromUrl` (src/api/summarize.ts:109). -/
def isJsWs (c : Char) : Bool :=
  let n := c.toNat
  n = 0x9 || n = 0xa || n = 0xb || n = 0xc || n = 0xd || n = 0x20 ||
  n = 0xa0 || n = 0x1680 || (0x2000 ≤ n && n ≤ 0x200a) || n = 0x2028 ||
  n = 0x2029 || n = 0x202f || n = 0x205f || n = 0x3000 || n = 0xfeff

/-- One left-to-right pass of `.replace(/\s\s+/g, ' ')`: a maximal run of
two or more whitespace characters becomes a single `' '`; a lone
whitespace character is kept as it is.  The `Bool` argument is true while
the tail of a matched run is being skipped. -/
def collapseWsAux : Bool → List Char → List Char
  | _, [] => []
  | true, c :: rest =>
      if isJsWs c then collapseWsAux true rest
      else c :: collapseWsAux false rest
  | false, c :: rest =>
      if isJsWs c then
        match rest with
        | [] => [c]
        | d :: _ =>
            if isJsWs d then ' ' :: collapseWsAux true rest
            else c :: collapseWsAux false rest
      else c :: collapseWsAux false rest

/-- The call `text.replace(/\s\s+/g, ' ')` (src/api/summarize.ts:109). -/
def collapseWs (l : List Char) : List Char := collapseWsAux false l

/-- JavaScript `String.prototype.trim`: drop whitespace from both ends. -/
def jsTrim (l : List Char) : List Char :=
  ((l.dropWhile isJsWs).reverse.dropWhile isJsWs).reverse

/-- The text-cleaning chain of `scrapeTextFromUrl`
(src/api/summarize.ts:109-110): collapse whitespace runs, trim, then
`substring(0, 15000)`. The element removal done by cheerio on line 108
is the HTML-extraction black box (spec §1): the fetch oracle of the
embedding returns the body text that remains after it. -/
def cleanText (s : String) : String :=
  String.mk ((jsTrim (collapseWs s.data)).take 15000)

/-- JavaScript `String.prototype.startsWith`, used to partition scrape
results (src/api/summarize.ts:63-64). -/
def strStartsWith (s p : String) : Bool := p.data.isPrefixOf s.data

/-- JavaScript `x || ''` on an optional string (src/api/summarize.ts:49):
an absent value yields the empty string (an empty string is falsy, so it
also yields the empty string, making the two cases indistinguishable). -/
def jsOrEmpty : Option String → String
  | none => ""
  | some s => s

/-- JavaScript truthiness of an optional string (`freeformQuestion ?`,
`!apiKey`): present and non-empty. -/
def jsTruthy : Option String → Bool
  | none => false
  | some s => s != ""

/-- Interface `PartyData` (src/api/summarize.ts:6-10). -/
structure PartyData where
  id : String
  name : String
  policyUrl : String
  deriving DecidableEq, Repr

/-- Interface `Theme` (src/api/summarize.ts:11-14). -/
structure Theme where
  key : String
  label : String
  deriving DecidableEq, Repr

/-- The result of `scrapeTextFromUrl`: `PartyData & { policyText: string }`
(src/api/summarize.ts:98). -/
structure ScrapedParty where
  id : String
  name : String
  policyUrl : String
  policyText : String
  deriving DecidableEq, Repr

/-- The inner mapping of `AnalysisResult`: theme key to summary string.
JavaScript objects are embedded as association lists with unique keys. -/
abbrev ThemeMap := List (String × String)

/-- Interface `AnalysisResult` (src/api/summarize.ts:15-19): party id to theme map. -/
abbrev AnalysisResult := List (String × ThemeMap)

/-- Interface `FreeformAnswer` (src/api/summarize.ts:21-24). -/
structure FreeformAnswer where
  question : String
  answer : String
  deriving DecidableEq, Repr

/-- The value stored in the cache: `{ analysis, freeformAnswer }`
(src/api/summarize.ts:50, 84). -/
structure CacheEntry where
  analysis : AnalysisResult
  freeformAnswer : Option FreeformAnswer
  deriving DecidableEq, Repr

/-- The JSON response sent by the handler: HTTP status plus the fields
that the various `res.status(...).json(...)` calls emit. -/
structure Resp where
  status : Nat
  analysis : Option AnalysisResult
  freeformAnswer : Option FreeformAnswer
  fromCache : Option Bool
  error : Option String
  deriving DecidableEq, Repr

/-- Observable side effects of one request: number of policy-page
fetches issued, number of theme-summarizer model calls, number of
free-answer model calls, and the keys passed to `kv.set`. -/
structure Trace where
  sourceFetches : Nat
  summarizerCalls : Nat
  freeformCalls : Nat
  cacheSetAttempts : List String
  deriving DecidableEq, Repr

/-- The trace of a request that performed no external effect. -/
def emptyTrace : Trace := ⟨0, 0, 0, []⟩

/-- The request together with its environment: the HTTP method and body
fields, the `GEMINI_API_KEY` environment variable, and oracles for the
four external collaborators (key-value store get/set, page fetch, the
two model calls).  A fetch oracle answer `Except.ok body` stands for a
2xx response whose markup, after cheerio's element removal
(src/api/summarize.ts:107-109), yields `body` as the `body` element
text; `Except.error e` stands for a network error or non-2xx status
(both throw in the source). -/
structure Env where
  method : String
  apiKey : Option String
  parties : Option (List PartyData)
  themes : Option (List Theme)
  freeformQuestion : Option String
  cacheGet : String → Except String (Option CacheEntry)
  cacheSet : String → CacheEntry → Nat → Except String Unit
  fetch : String → Except String String
  aiAnalysis : List ScrapedParty → List Theme → Except String AnalysisResult
  aiFreeform : List ScrapedParty → String → Except String FreeformAnswer

/-- The failure-marker prefix tested by the partition
(src/api/summarize.ts:63-64). -/
def failMarker : String := "（このURLからの情報取得に失敗しました"

/-- The sentinel returned when no URL is provided
(src/api/summarize.ts:101). -/
def noUrlText : String := "（URLが指定されていません）"

/-- The per-theme failure sentinel injected for failed parties
(src/api/summarize.ts:79). -/
def failSentinel : String := "情報取得失敗"

/-- The fallback message of the catch-all handler
(src/api/summarize.ts:92). -/
def serverErrorDefault : String := "サーバーでエラーが発生しました。"

/-- The error thrown when every scrape failed (src/api/summarize.ts:67). -/
def allFailedMessage : String := "すべてのURLから政策情報を取得できませんでした。"

/-- The text stored for a failed fetch (src/api/summarize.ts:113): the
failure marker, a colon, the stringified error, and a closing bracket. -/
def scrapeFailText (e : String) : String := failMarker ++ ": " ++ e ++ "）"

/-- The fallback `error.message || 'サーバーでエラーが発生しました。'`
(src/api/summarize.ts:92). -/
def jsErrorMessage (e : String) : String :=
  if e = "" then serverErrorDefault else e

/-- Function `scrapeTextFromUrl` (src/api/summarize.ts:98-115): no URL yields the
fixed no-URL sentinel; a failed fetch yields the failure-marker text; a
successful fetch yields the cleaned, truncated body text. -/
def scrapeTextFromUrl (fetch : String → Except String String)
    (party : PartyData) : ScrapedParty :=
  if party.policyUrl = "" then
    ⟨party.id, party.name, party.policyUrl, noUrlText⟩
  else
    match fetch party.policyUrl with
    | Except.ok body => ⟨party.id, party.name, party.policyUrl, cleanText body⟩
    | Except.error e => ⟨party.id, party.name, party.policyUrl, scrapeFailText e⟩

/-- The filter `scrapedPolicies.filter(p => p.policyText && !p.policyText.startsWith('（このURLからの情報取得に失敗しました'))`
(src/api/summarize.ts:63). -/
def successfulScrapes (l : List ScrapedParty) : List ScrapedParty :=
  l.filter (fun p => (p.policyText != "") && !(strStartsWith p.policyText failMarker))

/-- The filter `scrapedPolicies.filter(p => p.policyText.startsWith('（このURLからの情報取得に失敗しました'))`
(src/api/summarize.ts:64). -/
def failedScrapes (l : List ScrapedParty) : List ScrapedParty :=
  l.filter (fun p => strStartsWith p.policyText failMarker)

/-- Code-unit lexicographic comparison of character lists: the order
JavaScript's default `Array.prototype.sort` applies to strings. -/
def charListLe : List Char → List Char → Bool
  | [], _ => true
  | _ :: _, [] => false
  | a :: as, b :: bs =>
      if a.toNat < b.toNat then true
      else if b.toNat < a.toNat then false
      else charListLe as bs

/-- The string order used by `parties.map(p => p.policyUrl).sort()`
(src/api/summarize.ts:49). -/
def urlLe (a b : String) : Prop := charListLe a.data b.data = true

instance urlLe.decRel : DecidableRel urlLe :=
  fun a b => inferInstanceAs (Decidable (charListLe a.data b.data = true))

/-- The cache key (src/api/summarize.ts:49):
`parties.map(p => p.policyUrl).sort().join('|') + "::" + (freeformQuestion || '')`. -/
def cacheKey (parties : List PartyData) (freeformQuestion : Option String) :
    String :=
  String.intercalate "|"
      (List.insertionSort urlLe (parties.map (fun p => p.policyUrl)))
    ++ "::" ++ jsOrEmpty freeformQuestion

/-- Reading `analysis[partyId]` on the association-list embedding of a
JavaScript object. -/
def getEntry (m : AnalysisResult) (k : String) : Option ThemeMap :=
  (m.find? (fun e => e.1 == k)).map (fun e => e.2)

/-- Writing `analysis[partyId] = v` on the association-list embedding:
overwrite the entry if the key is present, append it otherwise. -/
def setEntry (m : AnalysisResult) (k : String) (v : ThemeMap) :
    AnalysisResult :=
  if m.any (fun e => e.1 == k) then
    m.map (fun e => if e.1 == k then (k, v) else e)
  else m ++ [(k, v)]

/-- The per-theme failure object built for one failed party
(src/api/summarize.ts:77-80): every requested theme key maps to the
fixed failure sentinel. -/
def errorResultFor (themes : List Theme) : ThemeMap :=
  themes.map (fun t => (t.key, failSentinel))

/-- The `failedScrapes.forEach` merge loop (src/api/summarize.ts:76-82). -/
def mergeFailed (a : AnalysisResult) (failed : List ScrapedParty)
    (themes : List Theme) : AnalysisResult :=
  failed.foldl (fun acc fp => setEntry acc fp.id (errorResultFor themes)) a

/-- The two handler variants embedded here: `tsApi` is
`src/api/summarize.ts`, `part002` is `src/unnamed/part_002`. -/
inductive HandlerVariant where
  | tsApi
  | part002
  deriving DecidableEq, Repr

/-- Variant `part_002` guards the theme-summarizer call with
`themes.length > 0 ? getAnalysisFromAI(...) : Promise.resolve({})`
(src/unnamed/part_002:79, reinforced inside its `getAnalysisFromAI` at
line 129); `summarize.ts` has no such guard and always calls the model
(src/api/summarize.ts:72, 117-142). -/
def summarizerShortCircuits : HandlerVariant → List Theme → Bool
  | HandlerVariant.part002, themes => themes.length == 0
  | HandlerVariant.tsApi, _ => false

/-- An error response: `res.status(s).json({ error: msg })`. -/
def errResp (status : Nat) (msg : String) : Resp :=
  ⟨status, none, none, none, some msg⟩

/-- The cache-miss path of the `try` block (src/api/summarize.ts:59-88):
scrape every party, partition, throw if no scrape succeeded, run the two
model calls jointly (`Promise.all`, lines 71-74: if either rejects the
joint await rejects and the catch-all answers 500 — when both reject,
JavaScript surfaces whichever rejected first in time; the embedding
deterministically surfaces the summarizer's message, the status being
500 either way), merge the failure sentinels, write the cache, respond.
A `kv.set` rejection is caught by the same catch-all (lines 85, 90-93). -/
def handlerMiss (v : HandlerVariant) (env : Env) (parties : List PartyData)
    (themes : List Theme) (key : String) : Resp × Trace :=
  let scraped := parties.map (scrapeTextFromUrl env.fetch)
  let fetches := (parties.filter (fun p => p.policyUrl != "")).length
  let succ := successfulScrapes scraped
  let failed := failedScrapes scraped
  if succ.length = 0 then
    (errResp 500 allFailedMessage, ⟨fetches, 0, 0, []⟩)
  else
    let sCalls := if summarizerShortCircuits v themes then 0 else 1
    let fCalls := if jsTruthy env.freeformQuestion then 1 else 0
    let summarizerRes : Except String AnalysisResult :=
      if summarizerShortCircuits v themes then Except.ok []
      else env.aiAnalysis succ themes
    let freeformRes : Except String (Option FreeformAnswer) :=
      if jsTruthy env.freeformQuestion then
        (env.aiFreeform succ (jsOrEmpty env.freeformQuestion)).map some
      else Except.ok none
    match summarizerRes, freeformRes with
    | Except.error e, _ =>
        (errResp 500 (jsErrorMessage e), ⟨fetches, sCalls, fCalls, []⟩)
    | Except.ok _, Except.error e =>
        (errResp 500 (jsErrorMessage e), ⟨fetches, sCalls, fCalls, []⟩)
    | Except.ok analysis0, Except.ok ff =>
        let analysis := mergeFailed analysis0 failed themes
        match env.cacheSet key ⟨analysis, ff⟩ 86400 with
        | Except.error e =>
            (errResp 500 (jsErrorMessage e), ⟨fetches, sCalls, fCalls, [key]⟩)
        | Except.ok _ =>
            (⟨200, some analysis, ff, some false, none⟩,
             ⟨fetches, sCalls, fCalls, [key]⟩)

/-- The `try` block (src/api/summarize.ts:47-93): compute the cache key,
consult the store — a `kv.get` rejection is caught by the catch-all and
answered with 500 (lines 50, 90-93) — answer a hit from the cache,
otherwise run the miss pipeline. -/
def handlerTry (v : HandlerVariant) (env : Env) (parties : List PartyData)
    (themes : List Theme) : Resp × Trace :=
  let key := cacheKey parties env.freeformQuestion
  match env.cacheGet key with
  | Except.error e => (errResp 500 (jsErrorMessage e), emptyTrace)
  | Except.ok (some entry) =>
      (⟨200, some entry.analysis, entry.freeformAnswer, some true, none⟩,
       emptyTrace)
  | Except.ok none => handlerMiss v env parties themes key

/-- The handler (src/api/summarize.ts:28-94): 405 unless POST, 400 when
`parties` or `themes` is missing from the body, 500 when the
`GEMINI_API_KEY` environment variable is absent or empty, then the
`try` block. -/
def handlerV (v : HandlerVariant) (env : Env) : Resp × Trace :=
  if env.method != "POST" then (errResp 405 "Method Not Allowed", emptyTrace)
  else
    match env.parties, env.themes with
    | some parties, some themes =>
        if !jsTruthy env.apiKey then
          (errResp 500 "APIキーがサーバー側で設定されていません。", emptyTrace)
        else handlerTry v env parties themes
    | _, _ => (errResp 400 "不正なリクエストです。", emptyTrace)

/-- The handler of `src/api/summarize.ts`. -/
def handler : Env → Resp × Trace := handlerV HandlerVariant.tsApi

/-- The handler variant of `src/unnamed/part_002`. -/
def handlerPart002 : Env → Resp × Trace := handlerV HandlerVariant.part002

theorem char_eq_of_toNat_eq {a b : Char} (h : a.toNat = b.toNat) : a = b :=
  Char.eq_of_val_eq (UInt32.eq_of_toBitVec_eq (BitVec.eq_of_toNat_eq h))

theorem charListLe_total (as bs : List Char) :
    charListLe as bs = true ∨ charListLe bs as = true := by
  induction as generalizing bs with
  | nil => left; rfl
  | cons a as ih =>
    cases bs with
    | nil => right; rfl
    | cons b bs =>
      rcases Nat.lt_trichotomy a.toNat b.toNat with h | h | h
      · left; simp [charListLe, h]
      · simp only [charListLe, h, Nat.lt_irrefl, if_false]
        exact ih bs
      · right; simp [charListLe, h]

theorem charListLe_antisymm (as bs : List Char) (h1 : charListLe as bs = true)
    (h2 : charListLe bs as = true) : as = bs := by
  induction as generalizing bs with
  | nil =>
    cases bs with
    | nil => rfl
    | cons b bs => simp [charListLe] at h2
  | cons a as ih =>
    cases bs with
    | nil => simp [charListLe] at h1
    | cons b bs =>
      rcases Nat.lt_trichotomy a.toNat b.toNat with h | h | h
      · simp [charListLe, h, Nat.lt_asymm h] at h2
      · have hab : a = b := char_eq_of_toNat_eq h
        subst hab
        simp only [charListLe, Nat.lt_irrefl, if_false] at h1 h2
        rw [ih bs h1 h2]
      · simp [charListLe, h, Nat.lt_asymm h] at h1

theorem charListLe_trans (as bs cs : List Char) (h1 : charListLe as bs = true)
    (h2 : charListLe bs cs = true) : charListLe as cs = true := by
  induction as generalizing bs cs with
  | nil => rfl
  | cons a as ih =>
    cases bs with
    | nil => simp [charListLe] at h1
    | cons b bs =>
      cases cs with
      | nil => simp [charListLe] at h2
      | cons c cs =>
        rcases Nat.lt_trichotomy a.toNat b.toNat with hab | hab | hab
        · rcases Nat.lt_trichotomy b.toNat c.toNat with hbc | hbc | hbc
          · simp [charListLe, Nat.lt_trans hab hbc]
          · simp [charListLe, hbc ▸ hab]
          · simp [charListLe, hbc, Nat.lt_asymm hbc] at h2
        · rcases Nat.lt_trichotomy b.toNat c.toNat with hbc | hbc | hbc
          · simp [charListLe, hab ▸ hbc]
          · simp only [charListLe, hab, hbc, Nat.lt_irrefl, if_false] at h1 h2 ⊢
            exact ih bs cs h1 h2
          · simp [charListLe, hbc, Nat.lt_asymm hbc] at h2
        · simp [charListLe, hab, Nat.lt_asymm hab] at h1

theorem sortUrls_perm_eq (l₁ l₂ : List String) (h : List.Perm l₁ l₂) :
    List.insertionSort urlLe l₁ = List.insertionSort urlLe l₂ := by
  haveI : IsTotal String urlLe := ⟨fun a b => charListLe_total a.data b.data⟩
  haveI : IsTrans String urlLe := ⟨fun a b c => charListLe_trans a.data b.data c.data⟩
  haveI : IsAntisymm String urlLe :=
    ⟨fun a b h1 h2 => by
      cases a; cases b
      exact congrArg String.mk (charListLe_antisymm _ _ h1 h2)⟩
  exact List.eq_of_perm_of_sorted
    ((List.perm_insertionSort urlLe l₁).trans
      (h.trans (List.perm_insertionSort urlLe l₂).symm))
    (List.sorted_insertionSort urlLe l₁)
    (List.sorted_insertionSort urlLe l₂)

theorem string_append_left_cancel {a b c : String} (h : a ++ b = a ++ c) :
    b = c := by
  have hd : (a ++ b).data = (a ++ c).data := congrArg String.data h
  rw [String.data_append, String.data_append] at hd
  have hbc := List.append_cancel_left hd
  cases b; cases c
  exact congrArg String.mk hbc

/-- C4 (counterexample): the cache key is built from the sorted list of
source URLs without deduplication, so two requests carrying the same
set of URLs but a different number of duplicate entries get different
keys: one party with URL `u` listed once versus twice. -/
theorem c4_counterexample :
    (([⟨"a", "A", "u"⟩, ⟨"a", "A", "u"⟩] : List PartyData).map
        (fun p => p.policyUrl)).dedup =
      (([⟨"a", "A", "u"⟩] : List PartyData).map (fun p => p.policyUrl)).dedup ∧
    cacheKey [⟨"a", "A", "u"⟩, ⟨"a", "A", "u"⟩] none ≠
      cacheKey [⟨"a", "A", "u"⟩] none := by
  constructor
  · decide
  · decide

/-- C4 (amended): the cache key builder is invariant under permutation
of the parties array — two requests whose parties carry the same
multiset of source URLs (same URLs with the same multiplicities,
irrespective of order) and the same question string produce the same
key.  It is not invariant under deduplication: the key is built from
the sorted list, not from the deduplicated set. -/
theorem c4_key_perm_invariant (ps1 ps2 : List PartyData) (q : Option String)
    (h : List.Perm (ps1.map (fun p => p.policyUrl))
      (ps2.map (fun p => p.policyUrl))) :
    cacheKey ps1 q = cacheKey ps2 q := by
  unfold cacheKey
  rw [sortUrls_perm_eq _ _ h]

theorem c4_key_perm_invariant_witness :
    cacheKey [⟨"a", "A", "u1"⟩, ⟨"b", "B", "u2"⟩] (some "q") =
      cacheKey [⟨"b", "B", "u2"⟩, ⟨"a", "A", "u1"⟩] (some "q") :=
  c4_key_perm_invariant [⟨"a", "A", "u1"⟩, ⟨"b", "B", "u2"⟩]
    [⟨"b", "B", "u2"⟩, ⟨"a", "A", "u1"⟩] (some "q") (by decide)

/-- C8: two requests with the same parties that differ only in the
free-form question get different cache keys when both supply a question
and the two question strings differ, and identical keys when both omit
the question. -/
theorem c8_question_key (ps : List PartyData) (q1 q2 : Option String) :
    (∀ s1 s2, q1 = some s1 → q2 = some s2 → s1 ≠ s2 →
      cacheKey ps q1 ≠ cacheKey ps q2) ∧
    (q1 = none → q2 = none → cacheKey ps q1 = cacheKey ps q2) := by
  constructor
  · rintro s1 s2 rfl rfl hne heq
    simp only [cacheKey, jsOrEmpty] at heq
    exact hne (string_append_left_cancel heq)
  · rintro rfl rfl
    rfl

theorem c8_question_key_witness :
    cacheKey [⟨"a", "A", "u"⟩] (some "q1") ≠ cacheKey [⟨"a", "A", "u"⟩] (some "q2") :=
  (c8_question_key [⟨"a", "A", "u"⟩] (some "q1") (some "q2")).1 "q1" "q2" rfl rfl
    (by decide)

/-- C9: for a party with a URL whose fetch succeeds, the extractor
returns the fetched body text with whitespace runs collapsed, trimmed,
and truncated by `substring(0, 15000)` (that is the chain `cleanText`),
so the returned text never exceeds 15,000 characters.  The removal of
script, style, nav, header, footer, aside, form and iframe elements is
the cheerio black box in front of the body text the fetch oracle
returns (src/api/summarize.ts:107-109, spec §1). -/
theorem c9_scrape_bound (fetch : String → Except String String)
    (party : PartyData) (body : String) (hurl : party.policyUrl ≠ "")
    (hfetch : fetch party.policyUrl = Except.ok body) :
    scrapeTextFromUrl fetch party =
      ⟨party.id, party.name, party.policyUrl, cleanText body⟩ ∧
    (cleanText body).length ≤ 15000 := by
  constructor
  · simp [scrapeTextFromUrl, hurl, hfetch]
  · show (String.mk ((jsTrim (collapseWs body.data)).take 15000)).length ≤ 15000
    simp only [String.length, List.length_take]
    exact Nat.min_le_left _ _

theorem c9_scrape_bound_witness :
    scrapeTextFromUrl (fun _ => Except.ok "hello   world ") ⟨"a", "A", "u"⟩ =
      ⟨"a", "A", "u", cleanText "hello   world "⟩ ∧
    (cleanText "hello   world ").length ≤ 15000 :=
  c9_scrape_bound (fun _ => Except.ok "hello   world ") ⟨"a", "A", "u"⟩
    "hello   world " (by decide) rfl


theorem getEntry_eq_none (m : AnalysisResult) (k : String)
    (h : ∀ e ∈ m, e.1 ≠ k) : getEntry m k = none := by
  unfold getEntry
  have hf : m.find? (fun e => e.1 == k) = none := by
    rw [List.find?_eq_none]
    intro e he
    simpa using h e he
  rw [hf]
  rfl

theorem find?_key_map_overwrite (m : AnalysisResult) (k k' : String)
    (v : ThemeMap) (hne : k ≠ k') :
    (m.map (fun e => if e.1 == k' then (k', v) else e)).find? (fun e => e.1 == k) =
      m.find? (fun e => e.1 == k) := by
  induction m with
  | nil => rfl
  | cons e rest ih =>
    rw [List.map_cons]
    by_cases hek' : e.1 = k'
    · have hh : ((if e.1 == k' then (k', v) else e) : String × ThemeMap) = (k', v) := by
        simp [hek']
      have h2 : e.1 ≠ k := by
        rw [hek']
        exact Ne.symm hne
      rw [hh, List.find?_cons_of_neg _ (by simp [Ne.symm hne]),
        List.find?_cons_of_neg _ (by simp [h2])]
      exact ih
    · have hh : ((if e.1 == k' then (k', v) else e) : String × ThemeMap) = e := by
        simp [hek']
      rw [hh]
      by_cases hek : e.1 = k
      · rw [List.find?_cons_of_pos _ (by simp [hek]),
          List.find?_cons_of_pos _ (by simp [hek])]
      · rw [List.find?_cons_of_neg _ (by simp [hek]),
          List.find?_cons_of_neg _ (by simp [hek])]
        exact ih

theorem find?_append_singleton_ne (m : AnalysisResult) (k k' : String)
    (v : ThemeMap) (hne : k ≠ k') :
    (m ++ [(k', v)]).find? (fun e => e.1 == k) = m.find? (fun e => e.1 == k) := by
  induction m with
  | nil =>
    rw [List.nil_append, List.find?_cons_of_neg _ (by simp [Ne.symm hne])]
  | cons e rest ih =>
    by_cases hek : e.1 = k
    · rw [List.cons_append, List.find?_cons_of_pos _ (by simp [hek]),
        List.find?_cons_of_pos _ (by simp [hek])]
    · rw [List.cons_append, List.find?_cons_of_neg _ (by simp [hek]),
        List.find?_cons_of_neg _ (by simp [hek])]
      exact ih

theorem getEntry_setEntry_ne (m : AnalysisResult) (k k' : String)
    (v : ThemeMap) (hne : k ≠ k') :
    getEntry (setEntry m k' v) k = getEntry m k := by
  unfold setEntry getEntry
  by_cases hany : m.any (fun e => e.1 == k') = true
  · rw [if_pos hany, find?_key_map_overwrite m k k' v hne]
  · rw [if_neg hany, find?_append_singleton_ne m k k' v hne]

theorem getEntry_mergeFailed_ne (a : AnalysisResult) (failed : List ScrapedParty)
    (themes : List Theme) (k : String) (h : ∀ s ∈ failed, s.id ≠ k) :
    getEntry (mergeFailed a failed themes) k = getEntry a k := by
  induction failed generalizing a with
  | nil => rfl
  | cons s rest ih =>
    have hstep : mergeFailed a (s :: rest) themes =
        mergeFailed (setEntry a s.id (errorResultFor themes)) rest themes := rfl
    rw [hstep, ih _ (fun x hx => h x (List.mem_cons_of_mem _ hx)),
      getEntry_setEntry_ne _ _ _ _ (fun he => h s (List.mem_cons_self _ _) he.symm)]

theorem mem_successfulScrapes {l : List ScrapedParty} {p : ScrapedParty} :
    p ∈ successfulScrapes l ↔
      p ∈ l ∧ p.policyText ≠ "" ∧ strStartsWith p.policyText failMarker = false := by
  simp [successfulScrapes, List.mem_filter, and_assoc, Bool.not_eq_true']

theorem mem_failedScrapes {l : List ScrapedParty} {p : ScrapedParty} :
    p ∈ failedScrapes l ↔
      p ∈ l ∧ strStartsWith p.policyText failMarker = true := by
  simp [failedScrapes, List.mem_filter]

theorem successfulScrapes_eq_nil {l : List ScrapedParty}
    (h : ∀ p ∈ l, strStartsWith p.policyText failMarker = true) :
    successfulScrapes l = [] := by
  unfold successfulScrapes
  rw [List.filter_eq_nil_iff]
  intro p hp
  simp [h p hp]

theorem scrapeTextFromUrl_id (f : String → Except String String) (p : PartyData) :
    (scrapeTextFromUrl f p).id = p.id := by
  unfold scrapeTextFromUrl
  by_cases h : p.policyUrl = ""
  · simp [h]
  · simp only [h, if_false]
    cases f p.policyUrl <;> rfl

theorem handlerV_miss (v : HandlerVariant) (env : Env) (ps : List PartyData)
    (ts : List Theme) (hm : env.method = "POST") (hp : env.parties = some ps)
    (ht : env.themes = some ts) (hk : jsTruthy env.apiKey = true)
    (hmiss : env.cacheGet (cacheKey ps env.freeformQuestion) = Except.ok none) :
    handlerV v env = handlerMiss v env ps ts (cacheKey ps env.freeformQuestion) := by
  unfold handlerV handlerTry
  rw [hm, hp, ht, hk]
  simp [hmiss]


/-- C6: on a cache miss where every party's extraction fails, the
handler answers 500 and issues no model call and no cache write. -/
theorem c6_all_failed (env : Env) (ps : List PartyData) (ts : List Theme)
    (hm : env.method = "POST") (hp : env.parties = some ps)
    (ht : env.themes = some ts) (hk : jsTruthy env.apiKey = true)
    (hmiss : env.cacheGet (cacheKey ps env.freeformQuestion) = Except.ok none)
    (hfail : ∀ p ∈ ps,
      strStartsWith (scrapeTextFromUrl env.fetch p).policyText failMarker = true) :
    (handler env).1.status = 500 ∧ (handler env).2.summarizerCalls = 0 ∧
    (handler env).2.freeformCalls = 0 ∧ (handler env).2.cacheSetAttempts = [] := by
  have hsucc : successfulScrapes (ps.map (scrapeTextFromUrl env.fetch)) = [] := by
    apply successfulScrapes_eq_nil
    intro p hp'
    rcases List.mem_map.mp hp' with ⟨q, hq, rfl⟩
    exact hfail q hq
  have hred : handler env =
      handlerMiss HandlerVariant.tsApi env ps ts (cacheKey ps env.freeformQuestion) :=
    handlerV_miss HandlerVariant.tsApi env ps ts hm hp ht hk hmiss
  rw [hred]
  unfold handlerMiss
  simp [hsucc, errResp]

def pA : PartyData := ⟨"a", "Party A", "https://a.example/policy"⟩

def pB : PartyData := ⟨"b", "Party B", ""⟩

def tEcon : Theme := ⟨"economic", "Economy"⟩

def baseEnv : Env :=
  { method := "POST"
    apiKey := some "k"
    parties := some [pA]
    themes := some [tEcon]
    freeformQuestion := none
    cacheGet := fun _ => Except.ok none
    cacheSet := fun _ _ _ => Except.ok ()
    fetch := fun _ => Except.ok "policy text"
    aiAnalysis := fun inp _ =>
      Except.ok (inp.map (fun p => (p.id, [("economic", "summary")])))
    aiFreeform := fun _ _ => Except.ok ⟨"質問", "answer"⟩ }

theorem c6_all_failed_witness :
    (handler { baseEnv with fetch := fun _ => Except.error "down" }).1.status = 500 ∧
    (handler { baseEnv with fetch := fun _ => Except.error "down" }).2.summarizerCalls = 0 ∧
    (handler { baseEnv with fetch := fun _ => Except.error "down" }).2.freeformCalls = 0 ∧
    (handler { baseEnv with fetch := fun _ => Except.error "down" }).2.cacheSetAttempts = [] :=
  c6_all_failed _ [pA] [tEcon] rfl rfl rfl rfl rfl (by decide)

/-- C7: the handler answers 405 when the method is not POST, 400 when
`parties` or `themes` is missing from the body, and 500 when the model
credential is absent — and in the credential-missing case no source
fetch is issued. -/
theorem c7_status_codes (env : Env) :
    (env.method ≠ "POST" → (handler env).1.status = 405) ∧
    (env.method = "POST" → (env.parties = none ∨ env.themes = none) →
      (handler env).1.status = 400) ∧
    (∀ ps ts, env.method = "POST" → env.parties = some ps →
      env.themes = some ts → jsTruthy env.apiKey = false →
      (handler env).1.status = 500 ∧ (handler env).2.sourceFetches = 0) := by
  refine ⟨?_, ?_, ?_⟩
  · intro h
    have hb : (env.method != "POST") = true := by simpa [bne_iff_ne] using h
    simp [handler, handlerV, hb, errResp]
  · intro hm hpt
    simp only [handler, handlerV, hm]
    rcases hpt with h | h
    · rw [h]
      cases env.themes <;> simp [errResp]
    · rw [h]
      cases env.parties <;> simp [errResp]
  · intro ps ts hm hp ht hk
    simp [handler, handlerV, hm, hp, ht, hk, errResp, emptyTrace]

theorem c7_status_codes_witness :
    (handler { baseEnv with method := "GET" }).1.status = 405 ∧
    (handler { baseEnv with parties := none }).1.status = 400 ∧
    (handler { baseEnv with apiKey := none }).1.status = 500 ∧
    (handler { baseEnv with apiKey := none }).2.sourceFetches = 0 := by
  exact ⟨(c7_status_codes { baseEnv with method := "GET" }).1 (by decide),
    (c7_status_codes { baseEnv with parties := none }).2.1 rfl (Or.inl rfl),
    ((c7_status_codes { baseEnv with apiKey := none }).2.2 [pA] [tEcon]
      rfl rfl rfl rfl).1,
    ((c7_status_codes { baseEnv with apiKey := none }).2.2 [pA] [tEcon]
      rfl rfl rfl rfl).2⟩


def noUrlEnv : Env :=
  { baseEnv with
    parties := some [pA, pB] }

def freeformFailEnv : Env :=
  { baseEnv with
    freeformQuestion := some "質問",
    aiFreeform := fun _ _ => Except.error "自由回答エラー" }

def cacheReadFailEnv : Env :=
  { baseEnv with
    cacheGet := fun _ => Except.error "kv read failed" }

def cacheWriteFailEnv : Env :=
  { baseEnv with
    cacheSet := fun _ _ _ => Except.error "kv write failed" }

def emptyThemesEnv : Env :=
  { baseEnv with
    themes := some [],
    freeformQuestion := some "質問" }

/-- C1 (divergence at the failing input): a party whose source is
absent (empty `policyUrl`) receives the no-URL sentinel, which does not
start with the URL-failure marker, so the partition of
src/api/summarize.ts:63-64 places it in the successful set: it is
passed to the AI summarizer (here an oracle echoing its input ids) and
its analysis entry is the AI-derived one, not the per-theme failure
sentinel the claim requires. -/
theorem c1_no_url_divergence :
    (scrapeTextFromUrl noUrlEnv.fetch pB).policyText = noUrlText ∧
    strStartsWith noUrlText failMarker = false ∧
    scrapeTextFromUrl noUrlEnv.fetch pB ∈
      successfulScrapes ([pA, pB].map (scrapeTextFromUrl noUrlEnv.fetch)) ∧
    scrapeTextFromUrl noUrlEnv.fetch pB ∉
      failedScrapes ([pA, pB].map (scrapeTextFromUrl noUrlEnv.fetch)) ∧
    (handler noUrlEnv).1.status = 200 ∧
    (handler noUrlEnv).1.analysis =
      some [("a", [("economic", "summary")]), ("b", [("economic", "summary")])] ∧
    errorResultFor [tEcon] = [("economic", failSentinel)] := by
  exact ⟨by decide, by decide, by decide, by decide, by decide, by decide, by decide⟩

/-- C2 (divergence at the failing input): with a question supplied and
one successful extraction, a failing free-answer call rejects the joint
`Promise.all` (src/api/summarize.ts:71-74), the catch-all answers 500,
and the successfully computed theme analysis is discarded instead of
being returned with `freeformAnswer` omitted.  The same holds in the
`part_002` variant. -/
theorem c2_freeform_fatal_divergence :
    (handler freeformFailEnv).1.status = 500 ∧
    (handler freeformFailEnv).1.analysis = none ∧
    (handlerPart002 freeformFailEnv).1.status = 500 ∧
    (handlerPart002 freeformFailEnv).1.analysis = none := by
  exact ⟨by decide, by decide, by decide, by decide⟩

/-- C3 (divergence at the failing inputs): a rejected `kv.get` is
caught by the handler's single catch-all and turned into a 500 instead
of being treated as a cache miss; a rejected `kv.set` after a fully
successful computation likewise turns the response into a 500 instead
of the computed result. -/
theorem c3_cache_failure_divergence :
    (handler cacheReadFailEnv).1.status = 500 ∧
    (handler cacheReadFailEnv).1.analysis = none ∧
    (handler cacheWriteFailEnv).1.status = 500 ∧
    (handler cacheWriteFailEnv).1.analysis = none := by
  exact ⟨by decide, by decide, by decide, by decide⟩

/-- C5 (counterexample): in src/api/summarize.ts the theme summarizer
has no empty-theme-list short circuit: a request with an empty theme
list (cache miss, one successful extraction, question supplied) still
issues one summarizer model call. -/
theorem c5_counterexample :
    (handler emptyThemesEnv).2.summarizerCalls = 1 := by
  decide

/-- C5 (amended): in the `part_002` variant the summarizer call is
guarded by `themes.length > 0`, so with an empty theme list no
summarizer model call is issued and the summarizer contributes the
empty mapping; combined with a supplied question, a cache miss and at
least one successful extraction, the response carries the populated
free-form answer (when that call succeeds and the cache write
succeeds), and the analysis mapping is the merge of the failure
sentinels into the empty mapping — in particular empty whenever no
party failed (a failed party still contributes an entry whose theme map
is empty, there being no themes). -/
theorem c5_part002_empty_themes (env : Env) (ps : List PartyData) (q : String)
    (fa : FreeformAnswer)
    (hm : env.method = "POST") (hp : env.parties = some ps)
    (ht : env.themes = some [])
    (hk : jsTruthy env.apiKey = true)
    (hq : env.freeformQuestion = some q) (hqne : q ≠ "")
    (hmiss : env.cacheGet (cacheKey ps env.freeformQuestion) = Except.ok none)
    (hsucc : successfulScrapes (ps.map (scrapeTextFromUrl env.fetch)) ≠ [])
    (hff : ∀ inp s, env.aiFreeform inp s = Except.ok fa)
    (hset : ∀ k e t, env.cacheSet k e t = Except.ok ()) :
    (handlerPart002 env).2.summarizerCalls = 0 ∧
    (handlerPart002 env).1.status = 200 ∧
    (handlerPart002 env).1.freeformAnswer = some fa ∧
    (handlerPart002 env).1.analysis =
      some (mergeFailed [] (failedScrapes (ps.map (scrapeTextFromUrl env.fetch))) []) ∧
    (failedScrapes (ps.map (scrapeTextFromUrl env.fetch)) = [] →
      (handlerPart002 env).1.analysis = some []) := by
  have hred : handlerPart002 env =
      handlerMiss HandlerVariant.part002 env ps [] (cacheKey ps env.freeformQuestion) :=
    handlerV_miss HandlerVariant.part002 env ps [] hm hp ht hk hmiss
  have hlen : (successfulScrapes (ps.map (scrapeTextFromUrl env.fetch))).length ≠ 0 := by
    simpa [List.length_eq_zero] using hsucc
  have hqt : jsTruthy (some q) = true := by
    simp [jsTruthy, bne_iff_ne, hqne]
  have h0 : summarizerShortCircuits HandlerVariant.part002 ([] : List Theme) = true := rfl
  rw [hred]
  unfold handlerMiss
  rw [hq]
  simp only [if_neg hlen, h0, hqt, if_true, jsOrEmpty, hff, hset, Except.map]
  refine ⟨trivial, trivial, trivial, trivial, fun hfl => ?_⟩
  rw [hfl]
  rfl

theorem c5_part002_empty_themes_witness :
    (handlerPart002 emptyThemesEnv).2.summarizerCalls = 0 ∧
    (handlerPart002 emptyThemesEnv).1.status = 200 ∧
    (handlerPart002 emptyThemesEnv).1.freeformAnswer = some ⟨"質問", "answer"⟩ ∧
    (handlerPart002 emptyThemesEnv).1.analysis =
      some (mergeFailed []
        (failedScrapes ([pA].map (scrapeTextFromUrl emptyThemesEnv.fetch))) []) ∧
    (failedScrapes ([pA].map (scrapeTextFromUrl emptyThemesEnv.fetch)) = [] →
      (handlerPart002 emptyThemesEnv).1.analysis = some []) :=
  c5_part002_empty_themes emptyThemesEnv [pA] "質問" ⟨"質問", "answer"⟩
    rfl rfl rfl rfl rfl (by decide) rfl (by decide)
    (fun _ _ => rfl) (fun _ _ _ => rfl)


/-- C10: the success/failure partition tests exactly "text non-empty"
and "text starts with the URL-failure marker"; a party whose fetch
succeeds but whose cleaned page text is empty therefore lands in
neither partition, its scrape is not part of the AI summarizer's input
(the successful set), and — provided the summarizer's output only uses
ids of its input, per spec §4.4, and party ids are unique — its id is
absent from any returned analysis mapping. -/
theorem c10_empty_text_partition (env : Env) (ps : List PartyData)
    (ts : List Theme) (b : PartyData) (body : String)
    (hm : env.method = "POST") (hp : env.parties = some ps)
    (ht : env.themes = some ts) (hk : jsTruthy env.apiKey = true)
    (hmiss : env.cacheGet (cacheKey ps env.freeformQuestion) = Except.ok none)
    (hb : b ∈ ps) (hurl : b.policyUrl ≠ "")
    (hbody : env.fetch b.policyUrl = Except.ok body)
    (hclean : cleanText body = "")
    (huniq : ∀ p ∈ ps, p.id = b.id → p = b)
    (hres : ∀ inp th r, env.aiAnalysis inp th = Except.ok r →
      ∀ e ∈ r, e.1 ∈ inp.map (fun s => s.id)) :
    (∀ (l : List ScrapedParty) (p : ScrapedParty),
        (p ∈ successfulScrapes l ↔
          p ∈ l ∧ p.policyText ≠ "" ∧ strStartsWith p.policyText failMarker = false) ∧
        (p ∈ failedScrapes l ↔ p ∈ l ∧ strStartsWith p.policyText failMarker = true)) ∧
    scrapeTextFromUrl env.fetch b ∉
      successfulScrapes (ps.map (scrapeTextFromUrl env.fetch)) ∧
    scrapeTextFromUrl env.fetch b ∉
      failedScrapes (ps.map (scrapeTextFromUrl env.fetch)) ∧
    b.id ∉ (successfulScrapes (ps.map (scrapeTextFromUrl env.fetch))).map (fun s => s.id) ∧
    (∀ a, (handler env).1.analysis = some a → getEntry a b.id = none) := by
  have hsb : scrapeTextFromUrl env.fetch b = ⟨b.id, b.name, b.policyUrl, ""⟩ := by
    unfold scrapeTextFromUrl
    rw [if_neg hurl, hbody]
    simp [hclean]
  have hsbText : (scrapeTextFromUrl env.fetch b).policyText = "" := by rw [hsb]
  have hnotsucc : scrapeTextFromUrl env.fetch b ∉
      successfulScrapes (ps.map (scrapeTextFromUrl env.fetch)) := by
    intro hmem
    rcases mem_successfulScrapes.mp hmem with ⟨_, hne, _⟩
    exact hne hsbText
  have hnotfail : scrapeTextFromUrl env.fetch b ∉
      failedScrapes (ps.map (scrapeTextFromUrl env.fetch)) := by
    intro hmem
    rcases mem_failedScrapes.mp hmem with ⟨_, hsw⟩
    rw [hsbText] at hsw
    exact absurd hsw (by decide)
  have hidnot : b.id ∉
      (successfulScrapes (ps.map (scrapeTextFromUrl env.fetch))).map (fun s => s.id) := by
    intro hmem
    rcases List.mem_map.mp hmem with ⟨s, hs, hsid⟩
    rcases mem_successfulScrapes.mp hs with ⟨hsl, hne, _⟩
    rcases List.mem_map.mp hsl with ⟨p, hpps, rfl⟩
    have hpid : p.id = b.id := by rw [← hsid, scrapeTextFromUrl_id]
    have hpb : p = b := huniq p hpps hpid
    subst hpb
    exact hne hsbText
  have hfid : ∀ s ∈ failedScrapes (ps.map (scrapeTextFromUrl env.fetch)), s.id ≠ b.id := by
    intro s hs hsid
    rcases mem_failedScrapes.mp hs with ⟨hsl, hsw⟩
    rcases List.mem_map.mp hsl with ⟨p, hpps, rfl⟩
    have hpid : p.id = b.id := by rw [← hsid, scrapeTextFromUrl_id]
    have hpb : p = b := huniq p hpps hpid
    subst hpb
    rw [hsbText] at hsw
    exact absurd hsw (by decide)
  refine ⟨fun l p => ⟨mem_successfulScrapes, mem_failedScrapes⟩, hnotsucc, hnotfail,
    hidnot, ?_⟩
  intro a ha
  have hred : handler env =
      handlerMiss HandlerVariant.tsApi env ps ts (cacheKey ps env.freeformQuestion) :=
    handlerV_miss HandlerVariant.tsApi env ps ts hm hp ht hk hmiss
  rw [hred] at ha
  simp only [handlerMiss, summarizerShortCircuits,
    if_neg Bool.false_ne_true] at ha
  split at ha
  · simp [errResp] at ha
  · split at ha
    · simp [errResp] at ha
    · simp [errResp] at ha
    · rename_i analysis0 ff heq1 heq2
      split at ha
      · simp [errResp] at ha
      · simp only [Option.some.injEq] at ha
        rw [← ha, getEntry_mergeFailed_ne _ _ _ _ hfid]
        apply getEntry_eq_none
        intro e he hek
        have hmem := hres _ _ _ heq1 e he
        rw [hek] at hmem
        exact hidnot hmem


def pC : PartyData := ⟨"c", "Party C", "https://c.example/policy"⟩

def emptyTextEnv : Env :=
  { baseEnv with
    parties := some [pC],
    fetch := fun _ => Except.ok "   ",
    aiAnalysis := fun _ _ => Except.ok [] }

theorem c10_empty_text_partition_witness :
    scrapeTextFromUrl emptyTextEnv.fetch pC ∉
      successfulScrapes ([pC].map (scrapeTextFromUrl emptyTextEnv.fetch)) ∧
    scrapeTextFromUrl emptyTextEnv.fetch pC ∉
      failedScrapes ([pC].map (scrapeTextFromUrl emptyTextEnv.fetch)) ∧
    (∀ a, (handler emptyTextEnv).1.analysis = some a → getEntry a pC.id = none) := by
  have h := c10_empty_text_partition emptyTextEnv [pC] [tEcon] pC "   "
    rfl rfl rfl rfl rfl (by decide) (by decide) rfl (by decide)
    (by
      intro p hp _
      exact List.mem_singleton.mp hp)
    (by
      intro inp th r hr e he
      cases hr
      exact absurd he (List.not_mem_nil e))
  exact ⟨h.2.1, h.2.2.1, h.2.2.2.2⟩

end JpPolitics
